import Mathlib

/-!
Shallow embedding of `src/app.py` (the ESP detection relay server):
the per-device result ledger, the gateway-response parsing and filtering
logic, the upload request handler, the summary endpoint, and the two-tier
ledger load. External effects (file system, HTTP calls) are modelled as
explicit environment records whose fields say how each effectful step
would turn out; the handler is then a pure function of that environment
and the server state.
-/

namespace IndukanDetect

/-! ## Data model: the ESP result ledger

`ESP_RESULTS` is a Python dict mapping device id strings to
`{"count": ..., "last_update": ...}` records (src/app.py lines 21-23,
190-194).  We model it as an association list with unique keys in
insertion order, which is exactly a Python dict's observable behaviour. -/

/-- One record of `ESP_RESULTS`: the dict written at src/app.py lines 191-194. -/
structure DeviceRecord where
  count : Int
  last_update : Int
deriving DecidableEq, Repr

/-- The `ESP_RESULTS` dict: device id to record, insertion-ordered, unique keys. -/
abbrev Ledger := List (String × DeviceRecord)

/-- Python dict assignment `ESP_RESULTS[esp_id] = rec`: replace the entry
for the key in place if present, else append. -/
def ledgerSet : Ledger → String → DeviceRecord → Ledger
  | [], k, v => [(k, v)]
  | (k', v') :: rest, k, v =>
    if k' = k then (k, v) :: rest else (k', v') :: ledgerSet rest k v

/-- Python dict lookup `ESP_RESULTS.get(k)`: first entry with the key. -/
def ledgerLookup : Ledger → String → Option DeviceRecord
  | [], _ => none
  | (k', v') :: rest, k => if k' = k then some v' else ledgerLookup rest k

/-- `sum(v["count"] for v in ESP_RESULTS.values())` (src/app.py lines 221, 238). -/
def ledgerTotal (l : Ledger) : Int :=
  (l.map (fun kv => kv.2.count)).sum

/-- The key list of the ledger (a Python dict's keys, which are unique). -/
def ledgerKeys (l : Ledger) : List String := l.map Prod.fst

/-! ## JSON-like values

The Roboflow workflow result and the predictions it carries are arbitrary
decoded-JSON Python values; we model them with `JVal`. -/

/-- A decoded JSON value as Python sees it (None / bool / number / string /
list / dict with string keys). -/
inductive JVal where
  | jnull : JVal
  | jbool : Bool → JVal
  | jnum : ℚ → JVal
  | jstr : String → JVal
  | jarr : List JVal → JVal
  | jobj : List (String × JVal) → JVal

/-- Python dict key lookup `d[k]` / `k in d` on a JSON object (unique keys,
first match). -/
def objGet (fs : List (String × JVal)) (k : String) : Option JVal :=
  (fs.find? (fun f => f.1 == k)).map Prod.snd

/-- Contiguous-sublist test on character lists, modelling Python's
substring operator `needle in hay` for strings. -/
def charsContain (needle : List Char) : List Char → Bool
  | [] => needle.isEmpty
  | c :: rest => needle.isPrefixOf (c :: rest) || charsContain needle rest

/-! ## Parsing the Roboflow result (src/app.py lines 136-149)

The `try` block builds the Python variable `predictions`.  In the list
branch, `"predictions" in item` and `predictions.extend(item["predictions"])`
can raise `TypeError`; the surrounding `except` then keeps whatever was
accumulated so far.  `extend` of a string or dict succeeds in Python and
appends the characters or the keys, which we model faithfully. -/

/-- What `predictions.extend(v)` appends for a JSON value `v`:
a list's elements, a string's characters, a dict's keys; `none` models the
`TypeError` raised on a non-iterable value. -/
def extendItems : JVal → Option (List JVal)
  | .jarr xs => some xs
  | .jstr s => some (s.data.map (fun c => JVal.jstr (String.mk [c])))
  | .jobj fs => some (fs.map (fun f => JVal.jstr f.1))
  | _ => none

/-- The `for item in result` loop of src/app.py lines 140-142, with the
accumulated `predictions` list as second argument.  Returning the
accumulator early models an exception caught by the `except` at line 148:
`"predictions" in item` raises `TypeError` on a number/bool/None item, and
`item["predictions"]` raises `TypeError` on a string or list item even when
the membership test succeeded. -/
def loopItems : List JVal → List JVal → List JVal
  | [], acc => acc
  | item :: rest, acc =>
    match item with
    | .jobj fs =>
      match objGet fs "predictions" with
      | some v =>
        match extendItems v with
        | some xs => loopItems rest (acc ++ xs)
        | none => acc
      | none => loopItems rest acc
    | .jstr s =>
      if charsContain "predictions".data s.data then acc else loopItems rest acc
    | .jarr xs =>
      if xs.any (fun x => match x with | .jstr t => t == "predictions" | _ => false)
      then acc else loopItems rest acc
    | _ => acc

/-- The value of the Python variable `predictions` after src/app.py
lines 137-149.  Note the dict branch at line 145 assigns
`result["predictions"]` without checking it is a list, so the returned
value is not necessarily a JSON array. -/
def parsePredictions (result : JVal) : JVal :=
  match result with
  | .jarr items => if items.isEmpty then .jarr [] else .jarr (loopItems items [])
  | .jobj fs =>
    match objGet fs "predictions" with
    | some v => v
    | none =>
      match objGet fs "result" with
      | some (.jarr xs) => .jarr xs
      | _ => .jarr []
  | _ => .jarr []

/-! ## Filtering (src/app.py lines 83-86, 151-155) -/

/-- `TARGET_LABEL` at src/app.py line 85. -/
def TARGET_LABEL : String := "male"

/-- `CONF_THRESHOLD = 0.4` at src/app.py line 86, written as the reduced
fraction 2/5 so that concrete comparisons reduce inside the kernel; the
theorem `CONF_THRESHOLD_eq` states the decimal value. -/
def CONF_THRESHOLD : ℚ := ⟨2, 5, by norm_num, by norm_num⟩

/-- Outcome of evaluating the filter condition of line 153 on one element:
either a boolean, or an uncaught Python exception (`AttributeError` /
`TypeError`), since lines 151-154 sit outside any `try`. -/
inductive FiltRes where
  | ok : Bool → FiltRes
  | crash : FiltRes
deriving DecidableEq, Repr

/-- Whether a `FiltRes` is a successful pass. -/
def FiltRes.isPass : FiltRes → Bool
  | .ok true => true
  | _ => false

/-- Python `s.lower()` on a string, restricted to ASCII case mapping
(all labels in play are ASCII; Python's full Unicode lowering is not
modelled). -/
def pyLower (s : String) : String := String.mk (s.data.map Char.toLower)

/-- Python `v.lower()`: only defined on strings; anything else raises
`AttributeError`. -/
def jLower : JVal → Option String
  | .jstr s => some (pyLower s)
  | _ => none

/-- Python `v >= <float>`: defined for numbers and bools (`True` is 1,
`False` is 0); comparison of any other value with a float raises
`TypeError`. -/
def numVal : JVal → Option ℚ
  | .jnum q => some q
  | .jbool b => some (if b then 1 else 0)
  | _ => none

/-- The condition of the comprehension at src/app.py line 153 on one
element `p`:
`p.get("class", "").lower() == TARGET_LABEL.lower() and
 p.get("confidence", 0) >= CONF_THRESHOLD`,
with parameters for the two module constants.  A non-dict `p` has no
`.get`, whence `.crash`; the `and` short-circuits, so the confidence value
is only inspected when the label matches. -/
def predPasses (tl : String) (thr : ℚ) (p : JVal) : FiltRes :=
  match p with
  | .jobj fs =>
    match jLower ((objGet fs "class").getD (.jstr "")) with
    | none => .crash
    | some s =>
      if s == pyLower tl then
        match numVal ((objGet fs "confidence").getD (.jnum 0)) with
        | none => .crash
        | some q => .ok (decide (thr ≤ q))
      else .ok false
  | _ => .crash

/-- What `for p in predictions` iterates over: a list's elements, a
string's characters, a dict's keys; `none` models `TypeError` on a
non-iterable value. -/
def iterElems : JVal → Option (List JVal)
  | .jarr xs => some xs
  | .jstr s => some (s.data.map (fun c => JVal.jstr (String.mk [c])))
  | .jobj fs => some (fs.map (fun f => JVal.jstr f.1))
  | _ => none

/-- The body of the comprehension at src/app.py lines 151-154 over the
already-iterated elements; `none` is an uncaught exception. -/
def filterGo (tl : String) (thr : ℚ) : List JVal → Option (List JVal)
  | [] => some []
  | p :: rest =>
    match predPasses tl thr p with
    | .crash => none
    | .ok b => (filterGo tl thr rest).map (fun r => if b then p :: r else r)

/-- The Python variable `filtered` of src/app.py lines 151-154, or `none`
when the comprehension raises (non-iterable `predictions`, or an element
on which the condition raises). -/
def filterPreds (tl : String) (thr : ℚ) (preds : JVal) : Option (List JVal) :=
  (iterElems preds).bind (filterGo tl thr)

/-- Modelled from the spec's sentence for comparison with `predPasses`
(which embeds the code): keep an item if its label — accepting either of
the two field name aliases `class` / `label`, compared case-insensitively —
equals the target label, and its confidence — accepting either of the two
aliases `confidence` / `score`, defaulting to 0 when absent — is ≥ the
threshold. -/
def predPassesSpec (tl : String) (thr : ℚ) (p : JVal) : Bool :=
  match p with
  | .jobj fs =>
    (match (objGet fs "class").orElse (fun _ => objGet fs "label") with
     | some (.jstr s) => pyLower s == pyLower tl
     | some _ => false
     | none => pyLower "" == pyLower tl) &&
    (match (objGet fs "confidence").orElse (fun _ => objGet fs "score") with
     | some (.jnum q) => decide (thr ≤ q)
     | some _ => false
     | none => decide (thr ≤ (0 : ℚ)))
  | _ => false

/-! ## Claim-side helper predicates for the parse shapes -/

/-- Whether a JSON value is a scalar (neither a list nor an object). -/
def isScalarJ : JVal → Bool
  | .jarr _ => false
  | .jobj _ => false
  | _ => true

/-- The predictions one well-formed item of a list-shaped gateway result
contributes: the value of its `predictions` key when that is a list. -/
def itemPreds : JVal → List JVal
  | .jobj fs =>
    match objGet fs "predictions" with
    | some (.jarr xs) => xs
    | _ => []
  | _ => []

/-- Flatten the `predictions` lists of a list of items. -/
def flatPreds : List JVal → List JVal
  | [] => []
  | item :: rest => itemPreds item ++ flatPreds rest

/-- The list shape the spec describes: every item is an object whose
`predictions` key, when present, holds a list. -/
def wfItems (items : List JVal) : Prop :=
  ∀ item ∈ items, ∃ fs, item = JVal.jobj fs ∧
    (∀ v, objGet fs "predictions" = some v → ∃ xs, v = JVal.jarr xs)

/-! ## The upload handler (src/app.py lines 94-231)

Every effectful step is represented by an environment field saying how it
would turn out; the handler is then a pure function of the environment and
the server state (the in-memory `ESP_RESULTS` dict plus the local
`esp_results.json` file). -/

/-- Timestamp choice of src/app.py lines 100-108: a truthy `X-Timestamp`
header is parsed with `int(...)`, falling back to server time on a parse
error; a missing (or empty, hence falsy) header yields server time.
Python `int` additionally tolerates surrounding whitespace, which no claim
depends on and which is not modelled. -/
def chooseTimestamp (hdr : Option String) (serverTime : Int) : Int :=
  match hdr with
  | some s =>
    match s.toInt? with
    | some n => n
    | none => serverTime
  | none => serverTime

/-- How each effectful step of one `POST /upload` request would turn out. -/
structure UploadEnv where
  /-- Truthiness of `request.data` (line 96). -/
  bodyNonempty : Bool
  /-- The `X-ESP-ID` header (line 99). -/
  espIdHeader : Option String
  /-- The `X-Timestamp` header, `none` also standing for an empty/falsy one. -/
  tsHeader : Option String
  /-- `int(time.time())` on this request. -/
  serverTime : Int
  /-- Whether writing the temp image file (lines 116-117) succeeds. -/
  tempSaveOk : Bool
  /-- The Roboflow workflow call (lines 123-129): decoded result, or the
  exception detail string. -/
  rfResult : Except String JVal
  /-- Whether the GitHub image upload (lines 158-184) ends with a 200/201. -/
  githubImageOk : Bool
  /-- Whether `save_esp_results()` (line 195) writes the file successfully. -/
  localSaveOk : Bool
  /-- Whether the GitHub `esp_results.json` backup (lines 198-219) succeeds. -/
  githubJsonOk : Bool

/-- The mutable server state the handler touches: the in-memory
`ESP_RESULTS` dict and the content of the local `esp_results.json` file
(`none` when absent; a failed write is modelled as leaving it unchanged). -/
structure ServerState where
  espResults : Ledger
  localFile : Option Ledger
deriving DecidableEq

/-- The JSON body of a 200 upload response (src/app.py lines 223-231);
the constant `"status": "ok"` field is omitted. -/
structure OkResponse where
  esp_id : String
  detected_this_esp : Nat
  total_all_esp : Int
  per_esp : Ledger
  objects : List JVal
  github_image_success : Bool

/-- The observable outcome of one upload request: an explicit JSON error
response (`jsonify({"error": ...}), status`), an uncaught exception (Flask
then produces a non-JSON 500 page), or a 200 JSON body. -/
inductive UploadOutcome where
  | jsonError : Nat → String → UploadOutcome
  | crash : UploadOutcome
  | ok : OkResponse → UploadOutcome

/-- Whether the outcome is one of the handler's explicit JSON error
responses. -/
def UploadOutcome.isJsonError : UploadOutcome → Bool
  | .jsonError _ _ => true
  | _ => false

/-- The upload handler, src/app.py lines 94-231, as a pure function of the
environment and state.  Requests are modelled sequentially: the lock at
lines 190, 236 serializes ledger access, so each request sees a consistent
state. -/
def upload (env : UploadEnv) (st : ServerState) : UploadOutcome × ServerState :=
  if env.bodyNonempty = false then
    (.jsonError 400 "no image data", st)
  else
    let esp_id := env.espIdHeader.getD "unknown"
    let timestamp := chooseTimestamp env.tsHeader env.serverTime
    if env.tempSaveOk = false then
      (.jsonError 500 "save temp image failed", st)
    else
      match env.rfResult with
      | .error _ => (.jsonError 500 "roboflow workflow failed", st)
      | .ok result =>
        match filterPreds TARGET_LABEL CONF_THRESHOLD (parsePredictions result) with
        | none => (.crash, st)
        | some filtered =>
          let detected_count := filtered.length
          let github_success := env.githubImageOk
          let newLedger :=
            ledgerSet st.espResults esp_id ⟨(detected_count : Int), timestamp * 1000⟩
          let newFile := if env.localSaveOk then some newLedger else st.localFile
          let total_all := ledgerTotal newLedger
          (.ok ⟨esp_id, detected_count, total_all, newLedger, filtered, github_success⟩,
           ⟨newLedger, newFile⟩)

/-! ## The summary endpoint (src/app.py lines 234-240) -/

/-- The JSON body of a `GET /summary` response. -/
structure SummaryResponse where
  total_all_esp : Int
  per_esp : Ledger
deriving DecidableEq

/-- The summary handler: a pure read of the ledger under the lock; it
performs no mutation, so the state component is returned unchanged. -/
def summaryStep (st : ServerState) : SummaryResponse × ServerState :=
  (⟨ledgerTotal st.espResults, st.espResults⟩, st)

/-! ## Two-tier ledger load (src/app.py lines 36-60)

`load_esp_results` reads the local file; on any local failure it fetches
`esp_results.json` from GitHub, and on a 200 decodes it, adopts it, and
seeds the local file.  Each point where an exception can arise is an
environment field.  The adopted ledger is kept at the JSON level (`JVal`)
because `json.load` can yield any JSON value, which is adopted verbatim. -/

/-- How each effectful step of `load_esp_results` would turn out. -/
structure LoadEnv where
  /-- The local tier: `none` when `esp_results.json` does not exist;
  `some none` when it exists but `open`/`json.load` (lines 40-41) raises;
  `some (some v)` when it parses to `v`. -/
  localRead : Option (Option JVal)
  /-- The GitHub GET (line 49): `none` when `requests.get` raises, else the
  status code. -/
  remoteGet : Option Nat
  /-- On a 200, decoding the blob (lines 51-52): `none` when
  base64/JSON decoding raises, else the decoded value. -/
  remoteContent : Option JVal
  /-- Whether the seeding local write (lines 53-54) succeeds. -/
  localWriteOk : Bool

/-- Outcome of `load_esp_results`: the value of `ESP_RESULTS` afterwards,
what (if anything) was successfully written to the local file, and whether
the remote GET was issued at all. -/
structure LoadResult where
  ledger : JVal
  wrote : Option JVal
  remoteFetched : Bool

/-- The GitHub fallback block of src/app.py lines 47-60.  Note that the
seeding local write at lines 53-54 sits inside the same `try` as the
fetch: if it raises after `ESP_RESULTS` was already set from the remote
content, the `except` catches it and control falls through to line 60,
which resets `ESP_RESULTS` to the empty dict. -/
def loadFromGitHub (env : LoadEnv) : LoadResult :=
  match env.remoteGet with
  | none => ⟨.jobj [], none, true⟩
  | some code =>
    if code = 200 then
      match env.remoteContent with
      | none => ⟨.jobj [], none, true⟩
      | some v =>
        if env.localWriteOk then ⟨v, some v, true⟩
        else ⟨.jobj [], none, true⟩
    else ⟨.jobj [], none, true⟩

/-- `load_esp_results` (src/app.py lines 36-60): local tier first, GitHub
fallback on any local failure, empty dict when everything fails.  The
function is total: every exception point is caught, so it never raises
outward. -/
def load_esp_results (env : LoadEnv) : LoadResult :=
  match env.localRead with
  | some (some v) => ⟨v, none, false⟩
  | some none => loadFromGitHub env
  | none => loadFromGitHub env

/-! ## Concrete fixtures

Rationals are written as explicit reduced fractions so the kernel can
evaluate the threshold comparisons; the theorems `conf08_eq` etc. state
their decimal values. -/

/-- The rational 0.61 (see `conf061_eq`). -/
def conf061 : ℚ := ⟨61, 100, by norm_num, by norm_num⟩

/-- The rational 0.59 (see `conf059_eq`). -/
def conf059 : ℚ := ⟨59, 100, by norm_num, by norm_num⟩

/-- The rational 0.8 (see `conf08_eq`). -/
def conf08 : ℚ := ⟨4, 5, by norm_num, by norm_num⟩

/-- The rational 0.9 (see `conf09_eq`). -/
def conf09 : ℚ := ⟨9, 10, by norm_num, by norm_num⟩

/-- The rational 0.6 (see `thr06_eq`). -/
def thr06 : ℚ := ⟨3, 5, by norm_num, by norm_num⟩

/-- The gateway prediction `{"class": "male", "confidence": 0.8}` of the
spec's worked example. -/
def predMale08 : JVal := .jobj [("class", .jstr "male"), ("confidence", .jnum conf08)]

/-- A detection carrying its label under the alias field name `label`
instead of `class`. -/
def predLabelAlias : JVal := .jobj [("label", .jstr "male"), ("confidence", .jnum conf09)]

/-- Empty server state: no device records, no local file. -/
def st0 : ServerState := ⟨[], none⟩

/-- A server state with one existing device record. -/
def st1 : ServerState := ⟨[("cam0", ⟨2, 100000⟩)], some [("cam0", ⟨2, 100000⟩)]⟩

/-- A fully successful upload request from `cam1` whose gateway result
carries an empty predictions list. -/
def env0 : UploadEnv :=
  ⟨true, some "cam1", none, 5, true, .ok (.jobj [("predictions", .jarr [])]), true, true, true⟩

/-- A fully successful upload request from `cam1` whose gateway result is
`{"predictions": [{"class": "male", "confidence": 0.8}]}`. -/
def env1 : UploadEnv :=
  ⟨true, some "cam1", none, 5, true, .ok (.jobj [("predictions", .jarr [predMale08])]),
   true, true, true⟩

/-- An upload request with an empty body. -/
def envEmptyBody : UploadEnv :=
  ⟨false, some "cam1", none, 5, true, .ok (.jobj [("predictions", .jarr [])]), true, true, true⟩

/-- An upload request whose temp-image write fails while everything else,
the gateway call included, would succeed. -/
def envTempFail : UploadEnv :=
  ⟨true, some "cam1", none, 5, false, .ok (.jobj [("predictions", .jarr [])]), true, true, true⟩

/-- The remote ledger blob `{"cam1": {"count": 3, "last_update": 7000}}`
used by the load counterexample. -/
def remoteV : JVal := .jobj [("cam1", .jobj [("count", .jnum 3), ("last_update", .jnum 7000)])]

/-! ## Helper lemmas -/

/-- An explicitly reduced fraction is the corresponding division. -/
theorem mk_eq_div (n : Int) (d : Nat) (h1 : d ≠ 0) (h2 : n.natAbs.Coprime d) :
    (Rat.mk' n d h1 h2 : ℚ) = (n : ℚ) / (d : ℚ) := by
  rw [Rat.mk'_eq_divInt, Rat.divInt_eq_div]
  norm_num

/-- The threshold constant is the source's decimal 0.4. -/
theorem CONF_THRESHOLD_eq : CONF_THRESHOLD = 0.4 := by
  rw [show CONF_THRESHOLD = Rat.mk' 2 5 (by norm_num) (by norm_num) from rfl, mk_eq_div]
  norm_num

/-- `conf061` is the decimal 0.61. -/
theorem conf061_eq : conf061 = 0.61 := by
  rw [show conf061 = Rat.mk' 61 100 (by norm_num) (by norm_num) from rfl, mk_eq_div]
  norm_num

/-- `conf059` is the decimal 0.59. -/
theorem conf059_eq : conf059 = 0.59 := by
  rw [show conf059 = Rat.mk' 59 100 (by norm_num) (by norm_num) from rfl, mk_eq_div]
  norm_num

/-- `conf08` is the decimal 0.8. -/
theorem conf08_eq : conf08 = 0.8 := by
  rw [show conf08 = Rat.mk' 4 5 (by norm_num) (by norm_num) from rfl, mk_eq_div]
  norm_num

/-- `conf09` is the decimal 0.9. -/
theorem conf09_eq : conf09 = 0.9 := by
  rw [show conf09 = Rat.mk' 9 10 (by norm_num) (by norm_num) from rfl, mk_eq_div]
  norm_num

/-- `thr06` is the decimal 0.6. -/
theorem thr06_eq : thr06 = 0.6 := by
  rw [show thr06 = Rat.mk' 3 5 (by norm_num) (by norm_num) from rfl, mk_eq_div]
  norm_num

/-- An empty body short-circuits to the 400 response, touching nothing. -/
theorem upload_err400 (env : UploadEnv) (st : ServerState)
    (hb : env.bodyNonempty = false) :
    upload env st = (.jsonError 400 "no image data", st) := by
  simp [upload, hb]

/-- A failing temp-image write yields the 500 response, touching nothing. -/
theorem upload_err500temp (env : UploadEnv) (st : ServerState)
    (hb : env.bodyNonempty = true) (ht : env.tempSaveOk = false) :
    upload env st = (.jsonError 500 "save temp image failed", st) := by
  simp [upload, hb, ht]

/-- A failing gateway call yields the 500 response, touching nothing. -/
theorem upload_err500rf (env : UploadEnv) (st : ServerState) (d : String)
    (hb : env.bodyNonempty = true) (ht : env.tempSaveOk = true)
    (hr : env.rfResult = .error d) :
    upload env st = (.jsonError 500 "roboflow workflow failed", st) := by
  simp [upload, hb, ht, hr]

/-- A comprehension that raises yields the crash outcome, touching nothing. -/
theorem upload_crash_eq (env : UploadEnv) (st : ServerState) (result : JVal)
    (hb : env.bodyNonempty = true) (ht : env.tempSaveOk = true)
    (hr : env.rfResult = .ok result)
    (hf : filterPreds TARGET_LABEL CONF_THRESHOLD (parsePredictions result) = none) :
    upload env st = (.crash, st) := by
  simp [upload, hb, ht, hr, hf]

/-- The successful path of the handler, fully evaluated. -/
theorem upload_run (env : UploadEnv) (st : ServerState) (result : JVal)
    (filtered : List JVal)
    (hb : env.bodyNonempty = true) (ht : env.tempSaveOk = true)
    (hr : env.rfResult = .ok result)
    (hf : filterPreds TARGET_LABEL CONF_THRESHOLD (parsePredictions result) = some filtered) :
    upload env st =
      (.ok ⟨env.espIdHeader.getD "unknown", filtered.length,
            ledgerTotal (ledgerSet st.espResults (env.espIdHeader.getD "unknown")
              ⟨(filtered.length : Int), chooseTimestamp env.tsHeader env.serverTime * 1000⟩),
            ledgerSet st.espResults (env.espIdHeader.getD "unknown")
              ⟨(filtered.length : Int), chooseTimestamp env.tsHeader env.serverTime * 1000⟩,
            filtered, env.githubImageOk⟩,
       ⟨ledgerSet st.espResults (env.espIdHeader.getD "unknown")
          ⟨(filtered.length : Int), chooseTimestamp env.tsHeader env.serverTime * 1000⟩,
        if env.localSaveOk then
          some (ledgerSet st.espResults (env.espIdHeader.getD "unknown")
            ⟨(filtered.length : Int), chooseTimestamp env.tsHeader env.serverTime * 1000⟩)
        else st.localFile⟩) := by
  simp [upload, hb, ht, hr, hf]

/-- Inversion of a 200 outcome: the conditions that led there and the
exact shape of the response and of the new state. -/
theorem upload_ok_inv (env : UploadEnv) (st : ServerState) (r : OkResponse)
    (st' : ServerState) (h : upload env st = (.ok r, st')) :
    env.bodyNonempty = true ∧ env.tempSaveOk = true ∧
    ∃ result filtered, env.rfResult = .ok result ∧
      filterPreds TARGET_LABEL CONF_THRESHOLD (parsePredictions result) = some filtered ∧
      r = ⟨env.espIdHeader.getD "unknown", filtered.length,
            ledgerTotal (ledgerSet st.espResults (env.espIdHeader.getD "unknown")
              ⟨(filtered.length : Int), chooseTimestamp env.tsHeader env.serverTime * 1000⟩),
            ledgerSet st.espResults (env.espIdHeader.getD "unknown")
              ⟨(filtered.length : Int), chooseTimestamp env.tsHeader env.serverTime * 1000⟩,
            filtered, env.githubImageOk⟩ ∧
      st' = ⟨ledgerSet st.espResults (env.espIdHeader.getD "unknown")
               ⟨(filtered.length : Int), chooseTimestamp env.tsHeader env.serverTime * 1000⟩,
             if env.localSaveOk then
               some (ledgerSet st.espResults (env.espIdHeader.getD "unknown")
                 ⟨(filtered.length : Int), chooseTimestamp env.tsHeader env.serverTime * 1000⟩)
             else st.localFile⟩ := by
  cases hb : env.bodyNonempty with
  | false => rw [upload_err400 env st hb] at h; exact absurd h (by simp)
  | true =>
    cases ht : env.tempSaveOk with
    | false => rw [upload_err500temp env st hb ht] at h; exact absurd h (by simp)
    | true =>
      cases hr : env.rfResult with
      | error d => rw [upload_err500rf env st d hb ht hr] at h; exact absurd h (by simp)
      | ok result =>
        cases hf : filterPreds TARGET_LABEL CONF_THRESHOLD (parsePredictions result) with
        | none => rw [upload_crash_eq env st result hb ht hr hf] at h; exact absurd h (by simp)
        | some filtered =>
          rw [upload_run env st result filtered hb ht hr hf] at h
          have h1 : UploadOutcome.ok _ = UploadOutcome.ok r := congrArg Prod.fst h
          have h2 := congrArg Prod.snd h
          injection h1 with h1
          exact ⟨rfl, rfl, result, filtered, rfl, hf, h1.symm, h2.symm⟩

/-- Looking up the key just assigned returns exactly the new record. -/
theorem ledgerLookup_ledgerSet_self (l : Ledger) (k : String) (v : DeviceRecord) :
    ledgerLookup (ledgerSet l k v) k = some v := by
  induction l with
  | nil => simp [ledgerSet, ledgerLookup]
  | cons hd rest ih =>
    obtain ⟨k', v'⟩ := hd
    by_cases h : k' = k
    · simp [ledgerSet, h, ledgerLookup]
    · simp [ledgerSet, h, ledgerLookup, ih]

/-- The key list of a cons. -/
theorem ledgerKeys_cons (kv : String × DeviceRecord) (l : Ledger) :
    ledgerKeys (kv :: l) = kv.1 :: ledgerKeys l := rfl

/-- Assignment leaves the key list unchanged when the key is present, and
appends the key otherwise. -/
theorem ledgerKeys_ledgerSet (l : Ledger) (k : String) (v : DeviceRecord) :
    ledgerKeys (ledgerSet l k v) =
      if k ∈ ledgerKeys l then ledgerKeys l else ledgerKeys l ++ [k] := by
  induction l with
  | nil => simp [ledgerSet, ledgerKeys]
  | cons hd rest ih =>
    obtain ⟨k', v'⟩ := hd
    by_cases h : k' = k
    · subst h
      simp only [ledgerSet, if_pos rfl, ledgerKeys_cons]
      simp [ledgerKeys_cons]
    · simp only [ledgerSet, if_neg h, ledgerKeys_cons, ih]
      by_cases hm : k ∈ ledgerKeys rest
      · simp [hm, List.mem_cons, Ne.symm h]
      · simp [hm, List.mem_cons, Ne.symm h]

/-- Assignment preserves key uniqueness. -/
theorem ledgerKeys_nodup_ledgerSet (l : Ledger) (k : String) (v : DeviceRecord)
    (h : (ledgerKeys l).Nodup) : (ledgerKeys (ledgerSet l k v)).Nodup := by
  rw [ledgerKeys_ledgerSet]
  by_cases hm : k ∈ ledgerKeys l
  · simpa [hm] using h
  · simp [hm, List.nodup_append, h]

/-- A comprehension that completes is the `List.filter` of its condition. -/
theorem filterGo_eq_filter (tl : String) (thr : ℚ) (xs ys : List JVal)
    (h : filterGo tl thr xs = some ys) :
    ys = xs.filter (fun p => (predPasses tl thr p).isPass) := by
  induction xs generalizing ys with
  | nil =>
    have hys : ys = [] := by simpa [filterGo] using h.symm
    simp [hys]
  | cons p rest ih =>
    cases hp : predPasses tl thr p with
    | crash =>
      unfold filterGo at h
      simp [hp] at h
    | ok b =>
      unfold filterGo at h
      simp only [hp, Option.map_eq_some'] at h
      obtain ⟨r, hr, hyr⟩ := h
      rw [← hyr, ih r hr]
      cases b with
      | true => simp [List.filter_cons, hp, FiltRes.isPass]
      | false => simp [List.filter_cons, hp, FiltRes.isPass]

/-- Every element of a completed comprehension satisfied the raw
threshold condition. -/
theorem mem_filterGo (tl : String) (thr : ℚ) (xs ys : List JVal) (p : JVal)
    (h : filterGo tl thr xs = some ys) (hp : p ∈ ys) :
    predPasses tl thr p = .ok true := by
  rw [filterGo_eq_filter tl thr xs ys h] at hp
  have := (List.mem_filter.mp hp).2
  cases hq : predPasses tl thr p with
  | crash => rw [hq] at this; simp [FiltRes.isPass] at this
  | ok b =>
    cases b with
    | true => rfl
    | false => rw [hq] at this; simp [FiltRes.isPass] at this

/-- On a well-formed item list the parse loop appends exactly the
flattened nested predictions. -/
theorem loopItems_wf (items : List JVal) (hwf : wfItems items) (acc : List JVal) :
    loopItems items acc = acc ++ flatPreds items := by
  induction items generalizing acc with
  | nil => simp [loopItems, flatPreds]
  | cons item rest ih =>
    obtain ⟨fs, rfl, hv⟩ := hwf item (by simp)
    have hrest : wfItems rest := fun x hx => hwf x (by simp [hx])
    cases hg : objGet fs "predictions" with
    | none => simp [loopItems, hg, flatPreds, itemPreds, ih hrest]
    | some v =>
      obtain ⟨xs, rfl⟩ := hv v hg
      simp [loopItems, hg, extendItems, flatPreds, itemPreds, ih hrest, List.append_assoc]

/-! ## Claim theorems -/

/-- C1: every upload request that completes with a 200 response has
`total_all_esp` equal to the sum of `count` over the `per_esp` map returned
in the same response, and every `GET /summary` response likewise. -/
theorem C1_total_all_is_sum :
    (∀ env st r st', upload env st = (.ok r, st') →
      r.total_all_esp = ledgerTotal r.per_esp) ∧
    (∀ st : ServerState,
      (summaryStep st).1.total_all_esp = ledgerTotal (summaryStep st).1.per_esp) := by
  constructor
  · intro env st r st' h
    obtain ⟨hb, ht, result, filtered, hr, hf, hreq, hst⟩ := upload_ok_inv env st r st' h
    subst hreq
    rfl
  · intro st
    rfl

/-- Witness for C1 at a concrete request. -/
theorem C1_total_all_is_sum_witness :
    upload env0 st0 = (.ok ⟨"cam1", 0, 0, [("cam1", ⟨0, 5000⟩)], [], true⟩,
      ⟨[("cam1", ⟨0, 5000⟩)], some [("cam1", ⟨0, 5000⟩)]⟩) ∧
    (⟨"cam1", 0, 0, [("cam1", ⟨0, 5000⟩)], [], true⟩ : OkResponse).total_all_esp =
      ledgerTotal (⟨"cam1", 0, 0, [("cam1", ⟨0, 5000⟩)], [], true⟩ : OkResponse).per_esp :=
  ⟨rfl, C1_total_all_is_sum.1 env0 st0
    ⟨"cam1", 0, 0, [("cam1", ⟨0, 5000⟩)], [], true⟩
    ⟨[("cam1", ⟨0, 5000⟩)], some [("cam1", ⟨0, 5000⟩)]⟩ rfl⟩

/-- C6: a ledger update for device `d` with count `c` and timestamp `t`
replaces the record wholesale — afterwards `d` maps to exactly
`{count := c, last_update := t * 1000}` whatever was there before — and key
uniqueness is preserved, so every key maps to exactly one record. -/
theorem C6_update_wholesale :
    ∀ (l : Ledger) (d : String) (c t : Int),
      ledgerLookup (ledgerSet l d ⟨c, t * 1000⟩) d = some ⟨c, t * 1000⟩ ∧
      ((ledgerKeys l).Nodup → (ledgerKeys (ledgerSet l d ⟨c, t * 1000⟩)).Nodup) :=
  fun l d c t =>
    ⟨ledgerLookup_ledgerSet_self l d ⟨c, t * 1000⟩,
     fun h => ledgerKeys_nodup_ledgerSet l d ⟨c, t * 1000⟩ h⟩

/-- Witness for C6 at a concrete ledger. -/
theorem C6_update_wholesale_witness :
    (ledgerKeys [("cam0", (⟨2, 100000⟩ : DeviceRecord))]).Nodup ∧
    ledgerLookup (ledgerSet [("cam0", ⟨2, 100000⟩)] "cam1" ⟨3, 9 * 1000⟩) "cam1" =
      some ⟨3, 9 * 1000⟩ ∧
    (ledgerKeys (ledgerSet [("cam0", ⟨2, 100000⟩)] "cam1" ⟨3, 9 * 1000⟩)).Nodup :=
  ⟨by decide,
   (C6_update_wholesale [("cam0", ⟨2, 100000⟩)] "cam1" 3 9).1,
   (C6_update_wholesale [("cam0", ⟨2, 100000⟩)] "cam1" 3 9).2 (by decide)⟩

/-- C8: the summary endpoint leaves the ledger unchanged, and calling it
twice with no intervening upload returns identical output. -/
theorem C8_summary_idempotent :
    ∀ st : ServerState, (summaryStep st).2 = st ∧
      (summaryStep ((summaryStep st).2)).1 = (summaryStep st).1 :=
  fun _ => ⟨rfl, rfl⟩

/-- C9: in every 200 upload response, `detected_this_esp` equals the length
of the returned `objects` list and equals the `count` of the record for the
request's device id in the returned `per_esp` map. -/
theorem C9_detected_consistent :
    ∀ env st r st', upload env st = (.ok r, st') →
      r.detected_this_esp = r.objects.length ∧
      ∃ rec, ledgerLookup r.per_esp r.esp_id = some rec ∧
        rec.count = (r.detected_this_esp : Int) := by
  intro env st r st' h
  obtain ⟨hb, ht, result, filtered, hr, hf, hreq, hst⟩ := upload_ok_inv env st r st' h
  subst hreq
  exact ⟨rfl,
    ⟨(filtered.length : Int), chooseTimestamp env.tsHeader env.serverTime * 1000⟩,
    ledgerLookup_ledgerSet_self st.espResults (env.espIdHeader.getD "unknown")
      ⟨(filtered.length : Int), chooseTimestamp env.tsHeader env.serverTime * 1000⟩,
    rfl⟩

/-- Witness for C9 at a concrete request with one detection. -/
theorem C9_detected_consistent_witness :
    upload env1 st0 = (.ok ⟨"cam1", 1, 1, [("cam1", ⟨1, 5000⟩)], [predMale08], true⟩,
      ⟨[("cam1", ⟨1, 5000⟩)], some [("cam1", ⟨1, 5000⟩)]⟩) ∧
    ((1 : Nat) = [predMale08].length ∧
      ∃ rec, ledgerLookup [("cam1", ⟨1, 5000⟩)] "cam1" = some rec ∧
        rec.count = ((1 : Nat) : Int)) :=
  ⟨rfl, C9_detected_consistent env1 st0
    ⟨"cam1", 1, 1, [("cam1", ⟨1, 5000⟩)], [predMale08], true⟩
    ⟨[("cam1", ⟨1, 5000⟩)], some [("cam1", ⟨1, 5000⟩)]⟩ rfl⟩

/-- C10: whenever the upload handler produces an error outcome (the 400, any
explicit 500, or the crash path), the in-memory ledger and the local ledger
file are exactly as they were before the request. -/
theorem C10_errors_leave_state :
    ∀ env st, ((upload env st).1.isJsonError = true ∨ (upload env st).1 = .crash) →
      (upload env st).2 = st := by
  intro env st herr
  cases hb : env.bodyNonempty with
  | false => rw [upload_err400 env st hb]
  | true =>
    cases ht : env.tempSaveOk with
    | false => rw [upload_err500temp env st hb ht]
    | true =>
      cases hr : env.rfResult with
      | error d => rw [upload_err500rf env st d hb ht hr]
      | ok result =>
        cases hf : filterPreds TARGET_LABEL CONF_THRESHOLD (parsePredictions result) with
        | none => rw [upload_crash_eq env st result hb ht hr hf]
        | some filtered =>
          rcases herr with h | h
          · rw [upload_run env st result filtered hb ht hr hf] at h
            simp [UploadOutcome.isJsonError] at h
          · rw [upload_run env st result filtered hb ht hr hf] at h
            simp at h

/-- Witness for C10 at a concrete empty-body request over a nonempty state. -/
theorem C10_errors_leave_state_witness :
    ((upload envEmptyBody st1).1.isJsonError = true ∨ (upload envEmptyBody st1).1 = .crash) ∧
    (upload envEmptyBody st1).2 = st1 :=
  ⟨Or.inl rfl, C10_errors_leave_state envEmptyBody st1 (Or.inl rfl)⟩

/-- C2 counterexample: a detection carrying its label under the alias field
name `label` (with confidence 0.9, well above the threshold) is kept by the
claim's alias-accepting filter but dropped by the code's filter, which
consults only the field name `class`. -/
theorem C2_cex_alias_ignored :
    predPassesSpec TARGET_LABEL CONF_THRESHOLD predLabelAlias = true ∧
    predPasses TARGET_LABEL CONF_THRESHOLD predLabelAlias = .ok false ∧
    filterPreds TARGET_LABEL CONF_THRESHOLD (.jarr [predLabelAlias]) = some [] :=
  ⟨rfl, rfl, rfl⟩

/-- C2 (amended): the filter keeps exactly the items whose `class` field
(a string, default "" when absent, compared after ASCII lowercasing)
equals the lowercased target label and whose `confidence` field (default 0
when absent) is ≥ the threshold; the alias field names `label` and `score`
are not consulted.  With threshold 0.6 a detection with class "MALE" and
confidence 0.61 passes and one with confidence 0.59 does not. -/
theorem C2_amended_filter_class_only :
    (∀ (tl : String) (thr : ℚ) (xs ys : List JVal),
      filterPreds tl thr (.jarr xs) = some ys →
      ys = xs.filter (fun p => (predPasses tl thr p).isPass)) ∧
    predPasses "male" thr06
      (.jobj [("class", .jstr "MALE"), ("confidence", .jnum conf061)]) = .ok true ∧
    predPasses "male" thr06
      (.jobj [("class", .jstr "MALE"), ("confidence", .jnum conf059)]) = .ok false ∧
    thr06 = 0.6 ∧ conf061 = 0.61 ∧ conf059 = 0.59 := by
  refine ⟨?_, rfl, rfl, thr06_eq, conf061_eq, conf059_eq⟩
  intro tl thr xs ys h
  exact filterGo_eq_filter tl thr xs ys (by simpa [filterPreds, iterElems] using h)

/-- Witness for the amended C2 at a concrete detection list. -/
theorem C2_amended_filter_class_only_witness :
    filterPreds "male" thr06
      (.jarr [.jobj [("class", .jstr "MALE"), ("confidence", .jnum conf061)], predLabelAlias]) =
      some [.jobj [("class", .jstr "MALE"), ("confidence", .jnum conf061)]] ∧
    [JVal.jobj [("class", .jstr "MALE"), ("confidence", .jnum conf061)]] =
      ([.jobj [("class", .jstr "MALE"), ("confidence", .jnum conf061)], predLabelAlias].filter
        (fun p => (predPasses "male" thr06 p).isPass)) :=
  ⟨rfl, C2_amended_filter_class_only.1 "male" thr06
    [.jobj [("class", .jstr "MALE"), ("confidence", .jnum conf061)], predLabelAlias]
    [.jobj [("class", .jstr "MALE"), ("confidence", .jnum conf061)]] rfl⟩

/-- C3 counterexample: on the spec's worked example the 200 response's
`objects` list carries the gateway prediction verbatim — the confidence is
the unscaled 0.8 under the original field name `class`, there is no `label`
field, and 0.8 is not the claimed 80.0. -/
theorem C3_cex_confidence_unscaled :
    (upload env1 st0).1 = .ok ⟨"cam1", 1, 1, [("cam1", ⟨1, 5000⟩)], [predMale08], true⟩ ∧
    objGet [("class", .jstr "male"), ("confidence", .jnum conf08)] "confidence" =
      some (.jnum conf08) ∧
    objGet [("class", .jstr "male"), ("confidence", .jnum conf08)] "label" = none ∧
    conf08 = 0.8 ∧ conf08 ≠ 80 := by
  refine ⟨rfl, rfl, rfl, conf08_eq, ?_⟩
  rw [conf08_eq]
  norm_num

/-- C3 (amended): the `objects` list of a 200 upload response carries the
filtered gateway predictions verbatim — no ×100 rescaling, no rounding, no
field renaming — and every member passed the threshold comparison on its
raw [0,1] confidence; the worked example yields detected count 1 with the
prediction unchanged. -/
theorem C3_amended_objects_verbatim :
    (∀ env st r st', upload env st = (.ok r, st') →
      ∀ p ∈ r.objects, predPasses TARGET_LABEL CONF_THRESHOLD p = .ok true) ∧
    upload env1 st0 = (.ok ⟨"cam1", 1, 1, [("cam1", ⟨1, 5000⟩)], [predMale08], true⟩,
      ⟨[("cam1", ⟨1, 5000⟩)], some [("cam1", ⟨1, 5000⟩)]⟩) := by
  constructor
  · intro env st r st' h p hp
    obtain ⟨hb, ht, result, filtered, hr, hf, hreq, hst⟩ := upload_ok_inv env st r st' h
    subst hreq
    unfold filterPreds at hf
    obtain ⟨es, hes, hgo⟩ := Option.bind_eq_some.mp hf
    exact mem_filterGo TARGET_LABEL CONF_THRESHOLD es filtered p hgo hp
  · rfl

/-- Witness for the amended C3 at the worked example. -/
theorem C3_amended_objects_verbatim_witness :
    upload env1 st0 = (.ok ⟨"cam1", 1, 1, [("cam1", ⟨1, 5000⟩)], [predMale08], true⟩,
      ⟨[("cam1", ⟨1, 5000⟩)], some [("cam1", ⟨1, 5000⟩)]⟩) ∧
    predPasses TARGET_LABEL CONF_THRESHOLD predMale08 = .ok true :=
  ⟨rfl, C3_amended_objects_verbatim.1 env1 st0
    ⟨"cam1", 1, 1, [("cam1", ⟨1, 5000⟩)], [predMale08], true⟩
    ⟨[("cam1", ⟨1, 5000⟩)], some [("cam1", ⟨1, 5000⟩)]⟩ rfl predMale08
    (List.mem_singleton.mpr rfl)⟩

/-- C4 counterexample: a request with a nonempty body and a gateway call
that would succeed still receives an explicit JSON 500 when the temp-image
write fails — a third hard-error case beyond the two the claim allows. -/
theorem C4_cex_third_error_case :
    envTempFail.bodyNonempty = true ∧
    (∃ v, envTempFail.rfResult = .ok v) ∧
    upload envTempFail st0 = (.jsonError 500 "save temp image failed", st0) :=
  ⟨rfl, ⟨.jobj [("predictions", .jarr [])], rfl⟩, rfl⟩

/-- C4 (amended): the handler returns an explicit JSON error response in
exactly three cases — empty body (400), temp-image save failure (500),
inference-gateway failure (500); and whenever body, temp save and the
gateway all succeed and the response assembly does not raise, the response
is a 200 regardless of the archival, remote-backup and local-save
outcomes. -/
theorem C4_amended_three_error_cases :
    ∀ env st,
      ((upload env st).1.isJsonError = true ↔
        env.bodyNonempty = false ∨ env.tempSaveOk = false ∨
          ∃ d, env.rfResult = .error d) ∧
      (∀ result filtered, env.bodyNonempty = true → env.tempSaveOk = true →
        env.rfResult = .ok result →
        filterPreds TARGET_LABEL CONF_THRESHOLD (parsePredictions result) = some filtered →
        ∃ r, (upload env st).1 = .ok r) := by
  intro env st
  constructor
  · constructor
    · intro h
      cases hb : env.bodyNonempty with
      | false => exact Or.inl rfl
      | true =>
        cases ht : env.tempSaveOk with
        | false => exact Or.inr (Or.inl rfl)
        | true =>
          cases hr : env.rfResult with
          | error d => exact Or.inr (Or.inr ⟨d, rfl⟩)
          | ok result =>
            cases hf : filterPreds TARGET_LABEL CONF_THRESHOLD (parsePredictions result) with
            | none =>
              rw [upload_crash_eq env st result hb ht hr hf] at h
              simp [UploadOutcome.isJsonError] at h
            | some filtered =>
              rw [upload_run env st result filtered hb ht hr hf] at h
              simp [UploadOutcome.isJsonError] at h
    · intro h
      rcases h with hb | ht | ⟨d, hr⟩
      · rw [upload_err400 env st hb]
        rfl
      · cases hb : env.bodyNonempty with
        | false => rw [upload_err400 env st hb]; rfl
        | true => rw [upload_err500temp env st hb ht]; rfl
      · cases hb : env.bodyNonempty with
        | false => rw [upload_err400 env st hb]; rfl
        | true =>
          cases ht : env.tempSaveOk with
          | false => rw [upload_err500temp env st hb ht]; rfl
          | true => rw [upload_err500rf env st d hb ht hr]; rfl
  · intro result filtered hb ht hr hf
    exact ⟨_, by rw [upload_run env st result filtered hb ht hr hf]⟩

/-- Witness for the amended C4 at a concrete fully-successful request. -/
theorem C4_amended_three_error_cases_witness :
    env0.bodyNonempty = true ∧ env0.tempSaveOk = true ∧
    env0.rfResult = .ok (.jobj [("predictions", .jarr [])]) ∧
    filterPreds TARGET_LABEL CONF_THRESHOLD
      (parsePredictions (.jobj [("predictions", .jarr [])])) = some [] ∧
    (∃ r, (upload env0 st0).1 = .ok r) :=
  ⟨rfl, rfl, rfl, rfl,
   (C4_amended_three_error_cases env0 st0).2 (.jobj [("predictions", .jarr [])]) []
     rfl rfl rfl rfl⟩

/-- C5 counterexample: local tier absent, remote fetch succeeds with a
nonempty ledger blob, but the seeding local write fails — the exception is
caught and control falls through to the final reset, so the ledger ends
empty rather than holding the adopted remote content. -/
theorem C5_cex_seed_write_discards :
    load_esp_results ⟨none, some 200, some remoteV, false⟩ = ⟨.jobj [], none, true⟩ ∧
    remoteV ≠ .jobj [] :=
  ⟨rfl, by simp [remoteV]⟩

/-- C5 (amended): load adopts the local file's JSON content verbatim when
the local read succeeds, performing no remote fetch; on a local failure it
fetches the remote blob and, when the fetch, the decode and the seeding
local write all succeed, adopts the remote content and persists it locally;
when the seeding write fails the caught exception discards the adopted
content and the ledger is the empty mapping; when the remote tier fails (a
raised request, a non-200 status, or a failed decode) the ledger is the
empty mapping; and the function is total, never raising outward. -/
theorem C5_amended_two_tier_load :
    (∀ env v, env.localRead = some (some v) →
      load_esp_results env = ⟨v, none, false⟩) ∧
    (∀ env v, (env.localRead = none ∨ env.localRead = some none) →
      env.remoteGet = some 200 → env.remoteContent = some v → env.localWriteOk = true →
      load_esp_results env = ⟨v, some v, true⟩) ∧
    (∀ env v, (env.localRead = none ∨ env.localRead = some none) →
      env.remoteGet = some 200 → env.remoteContent = some v → env.localWriteOk = false →
      load_esp_results env = ⟨.jobj [], none, true⟩) ∧
    (∀ env, (env.localRead = none ∨ env.localRead = some none) →
      env.remoteGet = none → load_esp_results env = ⟨.jobj [], none, true⟩) ∧
    (∀ env c, (env.localRead = none ∨ env.localRead = some none) →
      env.remoteGet = some c → c ≠ 200 →
      load_esp_results env = ⟨.jobj [], none, true⟩) ∧
    (∀ env, (env.localRead = none ∨ env.localRead = some none) →
      env.remoteGet = some 200 → env.remoteContent = none →
      load_esp_results env = ⟨.jobj [], none, true⟩) := by
  refine ⟨?_, ?_, ?_, ?_, ?_, ?_⟩
  · intro env v h
    simp [load_esp_results, h]
  · intro env v hl hg hc hw
    rcases hl with h | h <;> simp [load_esp_results, loadFromGitHub, h, hg, hc, hw]
  · intro env v hl hg hc hw
    rcases hl with h | h <;> simp [load_esp_results, loadFromGitHub, h, hg, hc, hw]
  · intro env hl hg
    rcases hl with h | h <;> simp [load_esp_results, loadFromGitHub, h, hg]
  · intro env c hl hg hc
    rcases hl with h | h <;> simp [load_esp_results, loadFromGitHub, h, hg, hc]
  · intro env hl hg hc
    rcases hl with h | h <;> simp [load_esp_results, loadFromGitHub, h, hg, hc]

/-- Witness for the amended C5: the remote-success-and-seed path at a
concrete environment. -/
theorem C5_amended_two_tier_load_witness :
    ((⟨none, some 200, some remoteV, true⟩ : LoadEnv).localRead = none) ∧
    load_esp_results ⟨none, some 200, some remoteV, true⟩ = ⟨remoteV, some remoteV, true⟩ :=
  ⟨rfl, C5_amended_two_tier_load.2.1 ⟨none, some 200, some remoteV, true⟩ remoteV
    (Or.inl rfl) rfl rfl rfl⟩

/-- C7 counterexample: the object shape is only checked for the presence of
the `predictions` key, not for its value being a list — an object whose
`predictions` is the number 42 parses to that number verbatim, an
unrecognized shape yielding neither a flat detection list nor the empty
list. -/
theorem C7_cex_nonlist_passthrough :
    parsePredictions (.jobj [("predictions", .jnum 42)]) = .jnum 42 ∧
    JVal.jnum 42 ≠ .jarr [] :=
  ⟨rfl, by intro h; exact JVal.noConfusion h⟩

/-- C7 (amended): parsing yields a flat list for the two shapes the spec
names — an object carrying a `predictions` key (whose value is adopted
verbatim, a flat list whenever it is one) and a list of objects each
possibly carrying a `predictions` list (flattened) — and a scalar value, or
an object with neither a `predictions` key nor a list-valued `result` key,
yields the empty list; the value of an object's `predictions` key is
however passed through without checking that it is a list. -/
theorem C7_amended_parse_shapes :
    (∀ fs v, objGet fs "predictions" = some v → parsePredictions (.jobj fs) = v) ∧
    (∀ items, wfItems items → parsePredictions (.jarr items) = .jarr (flatPreds items)) ∧
    (∀ v, isScalarJ v = true → parsePredictions v = .jarr []) ∧
    (∀ fs, objGet fs "predictions" = none →
      (∀ xs, objGet fs "result" ≠ some (.jarr xs)) →
      parsePredictions (.jobj fs) = .jarr []) := by
  refine ⟨?_, ?_, ?_, ?_⟩
  · intro fs v h
    simp [parsePredictions, h]
  · intro items hwf
    cases items with
    | nil => simp [parsePredictions, flatPreds]
    | cons i rest =>
      simp only [parsePredictions, List.isEmpty_cons, if_neg]
      rw [loopItems_wf (i :: rest) hwf []]
      simp
  · intro v hv
    cases v <;> simp [parsePredictions, isScalarJ] at hv ⊢
  · intro fs h1 h2
    cases hr : objGet fs "result" with
    | none => simp [parsePredictions, h1, hr]
    | some v =>
      cases v <;> first
        | exact absurd hr (h2 _)
        | simp [parsePredictions, h1, hr]

/-- Witness for the amended C7 at the two concrete recognized shapes. -/
theorem C7_amended_parse_shapes_witness :
    objGet [("predictions", .jarr [predMale08])] "predictions" =
      some (.jarr [predMale08]) ∧
    parsePredictions (.jobj [("predictions", .jarr [predMale08])]) = .jarr [predMale08] :=
  ⟨rfl, C7_amended_parse_shapes.1 [("predictions", .jarr [predMale08])]
    (.jarr [predMale08]) rfl⟩

end IndukanDetect
